import Mathlib

/-!
Shallow embedding of the klinika clinic-queue backend (FastAPI + SQLAlchemy).

The live HTTP/WebSocket handlers in `src/api/endpoints/appointments.py` and
`src/api/endpoints/consultations.py` inline all of their database queries; the
`AppointmentService` / `ConsultationService` classes in `src/services/` are not
referenced by any endpoint.  The definitions below follow the endpoint code
(the wired paths), with `db.query(...).filter(...).first()` rendered as
`List.find?`, `.count()` as `List.countP`, `.order_by(...)` as `List.mergeSort`,
and SQLAlchemy row mutation + commit as an id-targeted `List.map` (primary keys
are unique).  UUIDs are modelled as `Nat`, `datetime` instants as `Int`
(minutes), and `raise HTTPException(code, detail)` as `Except.error`.
`created_at`/`updated_at` bookkeeping columns are not modelled: no operation
reads them.
-/

namespace Klinika

/-- `UserRole` enum from `src/models/user.py`. -/
inductive UserRole
  | patient
  | doctor
  | admin
deriving DecidableEq, Repr

/-- `AppointmentStatus` enum from `src/models/appointment.py`. -/
inductive AppointmentStatus
  | waiting
  | in_progress
  | completed
  | cancelled
deriving DecidableEq, Repr

/-- The `.value` string of the `AppointmentStatus` enum. -/
def AppointmentStatus.value : AppointmentStatus → String
  | .waiting => "waiting"
  | .in_progress => "in_progress"
  | .completed => "completed"
  | .cancelled => "cancelled"

/-- `ConsultationType` enum from `src/models/consultation.py`. -/
inductive ConsultationType
  | chat
  | video
deriving DecidableEq, Repr

/-- The `.value` string of the `ConsultationType` enum. -/
def ConsultationType.value : ConsultationType → String
  | .chat => "chat"
  | .video => "video"

/-- `User` row from `src/models/user.py` (columns the core logic reads). -/
structure User where
  id : Nat
  role : UserRole
  is_active : Bool
  full_name : String
deriving DecidableEq, Repr

/-- `Appointment` row from `src/models/appointment.py`. -/
structure Appointment where
  id : Nat
  patient_id : Nat
  doctor_id : Nat
  status : AppointmentStatus
  scheduled_time : Int
deriving DecidableEq, Repr

/-- `Consultation` row from `src/models/consultation.py`. -/
structure Consultation where
  id : Nat
  appointment_id : Nat
  type : ConsultationType
  started_at : Option Int
  ended_at : Option Int
  notes : Option String
deriving DecidableEq, Repr

/-- `Message` row from `src/models/consultation.py`. -/
structure Message where
  id : Nat
  consultation_id : Nat
  sender_id : Nat
  message : String
  timestamp : Int
deriving DecidableEq, Repr

/-- The relational store the endpoints query and mutate. -/
structure Store where
  users : List User
  appointments : List Appointment
  consultations : List Consultation
  messages : List Message
deriving DecidableEq, Repr

/-- `raise HTTPException(status_code, detail)`. -/
structure HTTPException where
  status_code : Nat
  detail : String
deriving DecidableEq, Repr

/-- Session keys used to address a live connection: the f-strings
`"doctor_{id}"`, `"patient_{id}"`, `"user_{id}"`, `"chat_{cid}_{uid}"`. -/
inductive SessionKey
  | doctor (id : Nat)
  | patient (id : Nat)
  | user (id : Nat)
  | chat (consultation_id : Nat) (user_id : Nat)
deriving DecidableEq, Repr

/-- Serialized event payloads pushed over WebSocket connections (§6 of the
spec); each constructor carries the fields of the JSON object built at the
corresponding `send_personal_message` call site. -/
inductive Event
  | new_appointment (appointment_id : Nat) (patient_name : String) (scheduled_time : Int)
  | appointment_status_update (appointment_id : Nat) (status : AppointmentStatus)
  | appointment_cancelled (appointment_id : Nat)
  | consultation_started (consultation_id : Nat) (appointment_id : Nat)
      (consultation_type : ConsultationType)
  | consultation_ended (consultation_id : Nat) (appointment_id : Nat)
  | new_message (message_id : Nat) (sender_id : Nat) (sender_name : String)
      (message : String) (timestamp : Int)
  | history_message (message_id : Nat) (sender_id : Nat) (sender_name : String)
      (message : String) (timestamp : Int)
deriving DecidableEq, Repr

/-- A batch of notification sends: payload paired with target session key. -/
abbrev Sends := List (Event × SessionKey)

/-- `db.query(Appointment).filter(Appointment.id == appointment_id).first()`. -/
def find_appointment (s : Store) (appointment_id : Nat) : Option Appointment :=
  s.appointments.find? (fun a => decide (a.id = appointment_id))

/-- `db.query(Consultation).filter(Consultation.id == consultation_id).first()`. -/
def find_consultation (s : Store) (consultation_id : Nat) : Option Consultation :=
  s.consultations.find? (fun c => decide (c.id = consultation_id))

/-- SQLAlchemy mutation of the row with primary key `appointment_id` followed
by `db.commit()`: the identity-mapped object is replaced in place. -/
def set_appointment (s : Store) (appointment_id : Nat) (a' : Appointment) : Store :=
  { s with appointments := s.appointments.map (fun a => if a.id = appointment_id then a' else a) }

/-- `AppointmentService.get_queue_position` (`src/services/appointment.py`
lines 168-187); the queue WebSocket endpoint
(`src/api/endpoints/appointments.py` lines 299-308) inlines the identical
count.  Counts same-doctor appointments with status WAITING scheduled strictly
earlier, then adds 1. -/
def get_queue_position (s : Store) (appointment_id : Nat) : Except HTTPException Nat :=
  match find_appointment s appointment_id with
  | none => .error ⟨404, "Appointment not found"⟩
  | some appt =>
    .ok (s.appointments.countP (fun a =>
      decide (a.doctor_id = appt.doctor_id ∧ a.scheduled_time < appt.scheduled_time ∧
        a.status = AppointmentStatus.waiting)) + 1)

/-- `AppointmentService.get_estimated_wait_time` (`src/services/appointment.py`
lines 189-195): delegates to `get_queue_position` and multiplies by 15. -/
def get_estimated_wait_time (s : Store) (appointment_id : Nat) : Except HTTPException Nat :=
  (get_queue_position s appointment_id).map (fun p => p * 15)

/-- `POST /appointments/` — `create_appointment` in
`src/api/endpoints/appointments.py` lines 25-82.  The caller is an
authenticated active patient (`get_current_active_patient`); `new_id` stands
for the generated UUID primary key.  Doctor lookup requires role DOCTOR and
`is_active`; the collision check is an exact `scheduled_time` match against
WAITING/IN_PROGRESS appointments of that doctor; on success a WAITING
appointment is inserted and a `new_appointment` event targets
`doctor_{doctor_id}`. -/
def create_appointment (s : Store) (current_user : User) (doctor_id : Nat)
    (scheduled_time : Int) (new_id : Nat) :
    Except HTTPException (Store × Appointment × Sends) :=
  match s.users.find? (fun u =>
      decide (u.id = doctor_id ∧ u.role = UserRole.doctor ∧ u.is_active = true)) with
  | none => .error ⟨404, "Doctor not found"⟩
  | some _ =>
    match s.appointments.find? (fun a =>
        decide (a.doctor_id = doctor_id ∧ a.scheduled_time = scheduled_time ∧
          (a.status = AppointmentStatus.waiting ∨ a.status = AppointmentStatus.in_progress))) with
    | some _ => .error ⟨400, "Doctor already has an appointment at this time"⟩
    | none =>
      let appointment : Appointment :=
        { id := new_id, patient_id := current_user.id, doctor_id := doctor_id,
          status := AppointmentStatus.waiting, scheduled_time := scheduled_time }
      .ok ({ s with appointments := s.appointments ++ [appointment] }, appointment,
        [(Event.new_appointment new_id current_user.full_name scheduled_time,
          SessionKey.doctor doctor_id)])

/-- `PUT /appointments/{id}` — `update_appointment` in
`src/api/endpoints/appointments.py` lines 150-214.  `status_in` /
`scheduled_time_in` model the `exclude_unset` fields of `AppointmentUpdate`.
Patients may only touch their own appointment and may only set status
CANCELLED; no other transition validation is performed; present fields are
written via `setattr` and committed; if a status was supplied,
`appointment_status_update` events target both participants. -/
def update_appointment (s : Store) (current_user : User) (appointment_id : Nat)
    (status_in : Option AppointmentStatus) (scheduled_time_in : Option Int) :
    Except HTTPException (Store × Appointment × Sends) :=
  match find_appointment s appointment_id with
  | none => .error ⟨404, "Appointment not found"⟩
  | some appointment =>
    if current_user.role = UserRole.patient ∧ appointment.patient_id ≠ current_user.id then
      .error ⟨403, "Not enough permissions"⟩
    -- `appointment_in.status and appointment_in.status != CANCELLED`:
    -- a status was supplied and it is not CANCELLED
    else if current_user.role = UserRole.patient ∧
        status_in.getD AppointmentStatus.cancelled ≠ AppointmentStatus.cancelled then
      .error ⟨403, "Patients can only cancel appointments"⟩
    else
      let a1 := match status_in with
        | some st => { appointment with status := st }
        | none => appointment
      let a2 := match scheduled_time_in with
        | some t => { a1 with scheduled_time := t }
        | none => a1
      let sends : Sends := match status_in with
        | some _ =>
          [(Event.appointment_status_update appointment.id a2.status,
            SessionKey.patient appointment.patient_id),
           (Event.appointment_status_update appointment.id a2.status,
            SessionKey.doctor appointment.doctor_id)]
        | none => []
      .ok (set_appointment s appointment_id a2, a2, sends)

/-- `PUT /appointments/{id}/cancel` — `cancel_appointment` in
`src/api/endpoints/appointments.py` lines 217-276.  Authorization forbids a
patient who is not the owning patient and a doctor who is not the owning
doctor (the `role != ADMIN` conjunct of the source is kept although it is
always true inside the doctor branch); only WAITING appointments may be
cancelled; on success the status becomes CANCELLED and
`appointment_cancelled` events target both participants. -/
def cancel_appointment (s : Store) (current_user : User) (appointment_id : Nat) :
    Except HTTPException (Store × Appointment × Sends) :=
  match find_appointment s appointment_id with
  | none => .error ⟨404, "Appointment not found"⟩
  | some appointment =>
    if (current_user.role = UserRole.patient ∧ appointment.patient_id ≠ current_user.id) ∨
       (current_user.role = UserRole.doctor ∧ appointment.doctor_id ≠ current_user.id ∧
         current_user.role ≠ UserRole.admin) then
      .error ⟨403, "Not enough permissions"⟩
    else if appointment.status ≠ AppointmentStatus.waiting then
      .error ⟨400, "Cannot cancel appointment with status " ++ appointment.status.value⟩
    else
      let updated := { appointment with status := AppointmentStatus.cancelled }
      .ok (set_appointment s appointment_id updated, updated,
        [(Event.appointment_cancelled appointment.id, SessionKey.patient appointment.patient_id),
         (Event.appointment_cancelled appointment.id, SessionKey.doctor appointment.doctor_id)])

/-- `POST /consultations/start/{appointment_id}` — `start_consultation` in
`src/api/endpoints/consultations.py` lines 30-112.  Requester must be the
owning patient or owning doctor; the appointment must be WAITING; no
consultation may already exist for the appointment; on success the
appointment moves to IN_PROGRESS, a consultation with `started_at = now` and
no `ended_at` is inserted, and `consultation_started` events target both
participants. -/
def start_consultation (s : Store) (current_user : User) (appointment_id : Nat)
    (consultation_type : ConsultationType) (new_id : Nat) (now : Int) :
    Except HTTPException (Store × Consultation × Sends) :=
  match find_appointment s appointment_id with
  | none => .error ⟨404, "Appointment not found"⟩
  | some appointment =>
    -- not (is_patient or is_doctor)
    if current_user.id ≠ appointment.patient_id ∧ current_user.id ≠ appointment.doctor_id then
      .error ⟨403, "Not enough permissions"⟩
    else if appointment.status ≠ AppointmentStatus.waiting then
      .error ⟨400, "Cannot start consultation for appointment with status " ++
        appointment.status.value⟩
    else
      match s.consultations.find? (fun c => decide (c.appointment_id = appointment_id)) with
      | some _ => .error ⟨400, "Consultation already exists for this appointment"⟩
      | none =>
        let updated := { appointment with status := AppointmentStatus.in_progress }
        let consultation : Consultation :=
          { id := new_id, appointment_id := appointment_id, type := consultation_type,
            started_at := some now, ended_at := none, notes := none }
        .ok ({ set_appointment s appointment_id updated with
                consultations := s.consultations ++ [consultation] },
          consultation,
          [(Event.consultation_started new_id appointment_id consultation_type,
            SessionKey.patient appointment.patient_id),
           (Event.consultation_started new_id appointment_id consultation_type,
            SessionKey.doctor appointment.doctor_id)])

/-- `POST /consultations/{id}/end` — `end_consultation` in
`src/api/endpoints/consultations.py` lines 115-181.  The route dependency
`get_current_active_doctor` admits only active doctors; only the owning
doctor may end; `ended_at` must still be unset; on success `ended_at := now`,
the notes are stored, the owning appointment becomes COMPLETED, and a
`consultation_ended` event targets the patient only. -/
def end_consultation (s : Store) (current_user : User) (consultation_id : Nat)
    (notes : Option String) (now : Int) :
    Except HTTPException (Store × Consultation × Sends) :=
  match find_consultation s consultation_id with
  | none => .error ⟨404, "Consultation not found"⟩
  | some consultation =>
    match find_appointment s consultation.appointment_id with
    | none => .error ⟨404, "Associated appointment not found"⟩
    | some appointment =>
      if current_user.id ≠ appointment.doctor_id then
        .error ⟨403, "Only the assigned doctor can end the consultation"⟩
      else if consultation.ended_at ≠ none then
        .error ⟨400, "Consultation has already ended"⟩
      else
        let updated := { consultation with ended_at := some now, notes := notes }
        let appointment' := { appointment with status := AppointmentStatus.completed }
        .ok ({ set_appointment s consultation.appointment_id appointment' with
                consultations := s.consultations.map
                  (fun c => if c.id = consultation_id then updated else c) },
          updated,
          [(Event.consultation_ended consultation_id appointment.id,
            SessionKey.patient appointment.patient_id)])

/-- Sender-name lookup used when serializing stored messages:
`db.query(User).filter(User.id == message.sender_id).first()` and
`sender.full_name if sender else "Unknown"`. -/
def sender_name (s : Store) (user_id : Nat) : String :=
  match s.users.find? (fun u => decide (u.id = user_id)) with
  | some u => u.full_name
  | none => "Unknown"

/-- Messages of one consultation in query result order:
`filter(Message.consultation_id == cid).order_by(Message.timestamp)`.
`mergeSort` is stable, matching the SQL sort's preservation of insertion
order among equal timestamps. -/
def consultation_messages_sorted (s : Store) (consultation_id : Nat) : List Message :=
  (s.messages.filter (fun m => decide (m.consultation_id = consultation_id))).mergeSort
    (fun m1 m2 => decide (m1.timestamp ≤ m2.timestamp))

/-- `POST /consultations/{id}/message` — `create_message` in
`src/api/endpoints/consultations.py` lines 250-323.  Resolves consultation
then appointment, requires the sender to be a participant, rejects ended
consultations, appends the message, and sends one `new_message` event to
`user_{recipient}` where the recipient is the other participant. -/
def create_message (s : Store) (current_user : User) (consultation_id : Nat)
    (message_in : String) (new_id : Nat) (now : Int) :
    Except HTTPException (Store × Message × Sends) :=
  match find_consultation s consultation_id with
  | none => .error ⟨404, "Consultation not found"⟩
  | some consultation =>
    match find_appointment s consultation.appointment_id with
    | none => .error ⟨404, "Associated appointment not found"⟩
    | some appointment =>
      -- not (is_patient or is_doctor)
      if current_user.id ≠ appointment.patient_id ∧ current_user.id ≠ appointment.doctor_id then
        .error ⟨403, "Not enough permissions"⟩
      else if consultation.ended_at ≠ none then
        .error ⟨400, "Cannot send message to ended consultation"⟩
      else
        let message : Message :=
          { id := new_id, consultation_id := consultation_id, sender_id := current_user.id,
            message := message_in, timestamp := now }
        let recipient_id :=
          if current_user.id = appointment.doctor_id then appointment.patient_id
          else appointment.doctor_id
        .ok ({ s with messages := s.messages ++ [message] }, message,
          [(Event.new_message new_id current_user.id current_user.full_name message_in now,
            SessionKey.user recipient_id)])

/-- `GET /consultations/{id}/messages` — `get_consultation_messages` in
`src/api/endpoints/consultations.py` lines 326-369: participant or admin may
read; returns the consultation's messages ordered by timestamp. -/
def get_consultation_messages (s : Store) (current_user : User) (consultation_id : Nat) :
    Except HTTPException (List Message) :=
  match find_consultation s consultation_id with
  | none => .error ⟨404, "Consultation not found"⟩
  | some consultation =>
    match find_appointment s consultation.appointment_id with
    | none => .error ⟨404, "Associated appointment not found"⟩
    | some appointment =>
      if current_user.id ≠ appointment.patient_id ∧ current_user.id ≠ appointment.doctor_id ∧
          current_user.role ≠ UserRole.admin then
        .error ⟨403, "Not enough permissions"⟩
      else
        .ok (consultation_messages_sorted s consultation_id)

/-- History replay on a fresh chat connection — `chat_websocket` in
`src/api/endpoints/consultations.py` lines 417-434: after registering
`connection_id = f"chat_{consultation_id}_{user_id}"`, every stored message of
the consultation is sent, in timestamp order, as a `history_message` payload
to that connection id only. -/
def chat_replay_history (s : Store) (consultation_id : Nat) (user_id : Nat) : Sends :=
  (consultation_messages_sorted s consultation_id).map (fun m =>
    (Event.history_message m.id m.sender_id (sender_name s m.sender_id) m.message m.timestamp,
     SessionKey.chat consultation_id user_id))

/-- One iteration of the chat receive loop — `chat_websocket` in
`src/api/endpoints/consultations.py` lines 437-476.  `incoming` is the parsed
`"message"` field of the received JSON (`none` when the key is absent, which
the loop skips); `appointment` is the row resolved during connection setup.
The loop inserts the message with no `ended_at` check and fans the
`new_message` payload out to BOTH participants' chat keys, the sender's
included. -/
def chat_process_message (s : Store) (user : User) (consultation_id : Nat)
    (appointment : Appointment) (incoming : Option String) (new_id : Nat) (now : Int) :
    Store × Sends :=
  match incoming with
  | none => (s, [])
  | some text =>
    let new_message : Message :=
      { id := new_id, consultation_id := consultation_id, sender_id := user.id,
        message := text, timestamp := now }
    ({ s with messages := s.messages ++ [new_message] },
     [(Event.new_message new_id user.id user.full_name text now,
       SessionKey.chat consultation_id appointment.patient_id),
      (Event.new_message new_id user.id user.full_name text now,
       SessionKey.chat consultation_id appointment.doctor_id)])

/-- Modelled from the spec: the `ConnectionManager` class in
`src/core/websockets.py` is entirely commented out in the repository (the
endpoints import it, but no live definition exists under `src/`), so the
registry state is taken from spec §4.1 / §2: a map from session key to live
connection, at most one connection per key.  Connections are identified by
`Nat` handles; the key→connection dict is a key-unique association list in
insertion order. -/
structure ConnectionManager where
  active_connections : List (String × Nat)
deriving DecidableEq, Repr

/-- Dict lookup `key in d` / `d[key]`. -/
def ConnectionManager.lookup (m : ConnectionManager) (key : String) : Option Nat :=
  (m.active_connections.find? (fun p => decide (p.1 = key))).map (fun p => p.2)

/-- Modelled from the spec: `connect(key, connection)` (§4.1) — if `key`
already maps to a live connection, close the old one first (best-effort,
errors ignored), then register the new one.  Returns the new registry state
and the connection that was closed, if any.  Dict assignment keeps the
original slot of an existing key and appends a fresh key at the end. -/
def ConnectionManager.connect (m : ConnectionManager) (key : String) (conn : Nat) :
    ConnectionManager × Option Nat :=
  let closed := m.lookup key
  let updated :=
    if m.active_connections.any (fun p => decide (p.1 = key)) then
      m.active_connections.map (fun p => if p.1 = key then (key, conn) else p)
    else
      m.active_connections ++ [(key, conn)]
  (⟨updated⟩, closed)

/-- Modelled from the spec: `disconnect(key)` (§4.1) — removes the mapping if
present; no-op otherwise. -/
def ConnectionManager.disconnect (m : ConnectionManager) (key : String) : ConnectionManager :=
  ⟨m.active_connections.filter (fun p => decide (¬ p.1 = key))⟩

/-! ## Helper lemmas -/

theorem countP_le_of_imp {α : Type} (p q : α → Bool) (l : List α)
    (hpq : ∀ x ∈ l, p x = true → q x = true) : l.countP p ≤ l.countP q := by
  induction l with
  | nil => simp [List.countP_nil]
  | cons y ys ih =>
    rw [List.countP_cons, List.countP_cons]
    have hys : ys.countP p ≤ ys.countP q :=
      ih (fun x hx => hpq x (List.mem_cons_of_mem y hx))
    by_cases hy : p y = true
    · have : q y = true := hpq y (List.mem_cons_self y ys) hy
      simp [hy, this]
      omega
    · simp [Bool.not_eq_true] at hy
      simp [hy]
      omega

theorem countP_lt_of_witness {α : Type} (p q : α → Bool) (l : List α)
    (hpq : ∀ x ∈ l, p x = true → q x = true)
    (x : α) (hx : x ∈ l) (hq : q x = true) (hp : p x = false) :
    l.countP p < l.countP q := by
  induction l with
  | nil => cases hx
  | cons y ys ih =>
    rw [List.countP_cons, List.countP_cons]
    rcases List.mem_cons.mp hx with rfl | hx
    · have hys : ys.countP p ≤ ys.countP q :=
        countP_le_of_imp p q ys (fun z hz => hpq z (List.mem_cons_of_mem x hz))
      simp [hp, hq]
      omega
    · have hlt : ys.countP p < ys.countP q :=
        ih (fun z hz => hpq z (List.mem_cons_of_mem y hz)) hx
      by_cases hy : p y = true
      · have : q y = true := hpq y (List.mem_cons_self y ys) hy
        simp [hy, this]
        omega
      · simp [Bool.not_eq_true] at hy
        simp [hy]
        omega

/-! ## C1 / C10: queue estimator -/

/-- The WAITING-and-strictly-earlier-for-the-same-doctor predicate counted by
`get_queue_position`. -/
def queue_pred (a : Appointment) : Appointment → Bool := fun b =>
  decide (b.doctor_id = a.doctor_id ∧ b.scheduled_time < a.scheduled_time ∧
    b.status = AppointmentStatus.waiting)

theorem get_queue_position_found (s : Store) (aid : Nat) (a : Appointment)
    (h : find_appointment s aid = some a) :
    get_queue_position s aid = .ok (s.appointments.countP (queue_pred a) + 1) := by
  unfold get_queue_position
  rw [h]
  rfl

/-- C1: for every appointment present in the store, `position` is 1 plus the
number of same-doctor WAITING appointments scheduled strictly earlier, and
`estimatedWaitMinutes` is `position * 15`; consequently, among a doctor's
WAITING appointments with pairwise-distinct scheduled times, position is
strictly increasing in scheduled-time order and the earliest one has
position 1. -/
theorem queue_position_formula_and_monotone :
    (∀ (s : Store) (aid : Nat) (a : Appointment),
      find_appointment s aid = some a →
      get_queue_position s aid = .ok (s.appointments.countP (queue_pred a) + 1) ∧
      get_estimated_wait_time s aid =
        .ok ((s.appointments.countP (queue_pred a) + 1) * 15)) ∧
    (∀ (s : Store) (aid bid : Nat) (a b : Appointment) (pa pb : Nat),
      find_appointment s aid = some a →
      find_appointment s bid = some b →
      a.doctor_id = b.doctor_id →
      a.status = AppointmentStatus.waiting →
      b.status = AppointmentStatus.waiting →
      a.scheduled_time < b.scheduled_time →
      get_queue_position s aid = .ok pa →
      get_queue_position s bid = .ok pb →
      pa < pb) ∧
    (∀ (s : Store) (aid : Nat) (a : Appointment),
      find_appointment s aid = some a →
      a.status = AppointmentStatus.waiting →
      (∀ b ∈ s.appointments, b.doctor_id = a.doctor_id →
        b.status = AppointmentStatus.waiting → ¬ b.scheduled_time < a.scheduled_time) →
      get_queue_position s aid = .ok 1) := by
  refine ⟨?_, ?_, ?_⟩
  · intro s aid a h
    refine ⟨get_queue_position_found s aid a h, ?_⟩
    unfold get_estimated_wait_time
    rw [get_queue_position_found s aid a h]
    rfl
  · intro s aid bid a b pa pb ha hb hdoc hwa hwb hlt hpa hpb
    rw [get_queue_position_found s aid a ha] at hpa
    rw [get_queue_position_found s bid b hb] at hpb
    have hpa' : pa = s.appointments.countP (queue_pred a) + 1 := by
      cases hpa; rfl
    have hpb' : pb = s.appointments.countP (queue_pred b) + 1 := by
      cases hpb; rfl
    have hmem : a ∈ s.appointments := List.mem_of_find?_eq_some ha
    have hcount : s.appointments.countP (queue_pred a) <
        s.appointments.countP (queue_pred b) := by
      apply countP_lt_of_witness (queue_pred a) (queue_pred b) s.appointments
        ?_ a hmem ?_ ?_
      · intro x _ hx
        simp only [queue_pred, decide_eq_true_eq] at hx ⊢
        exact ⟨hx.1.trans hdoc, lt_trans hx.2.1 hlt, hx.2.2⟩
      · simp only [queue_pred, decide_eq_true_eq]
        exact ⟨hdoc, hlt, hwa⟩
      · simp only [queue_pred, decide_eq_false_iff_not]
        intro hcontra
        exact lt_irrefl _ hcontra.2.1
    omega
  · intro s aid a h hw hnone
    rw [get_queue_position_found s aid a h]
    have : s.appointments.countP (queue_pred a) = 0 := by
      rw [List.countP_eq_zero]
      intro b hb
      simp only [queue_pred, decide_eq_true_eq, not_and]
      intro hdoc hlt hwb
      exact hnone b hb hdoc hwb hlt
    rw [this]

/-- Two WAITING appointments for doctor 5 at times 100 < 200. -/
def demo_store_queue : Store :=
  { users := [],
    appointments := [⟨10, 1, 5, AppointmentStatus.waiting, 100⟩,
                     ⟨20, 2, 5, AppointmentStatus.waiting, 200⟩],
    consultations := [], messages := [] }

theorem queue_position_formula_and_monotone_witness :
    (1 : Nat) < 2 ∧ get_queue_position demo_store_queue 10 = Except.ok 1 :=
  ⟨queue_position_formula_and_monotone.2.1 demo_store_queue 10 20
      ⟨10, 1, 5, AppointmentStatus.waiting, 100⟩
      ⟨20, 2, 5, AppointmentStatus.waiting, 200⟩ 1 2
      (by decide) (by decide) (by decide) (by decide) (by decide) (by decide)
      (by rfl) (by rfl),
   queue_position_formula_and_monotone.2.2 demo_store_queue 10
      ⟨10, 1, 5, AppointmentStatus.waiting, 100⟩
      (by decide) (by decide) (by decide)⟩

/-- C10: the queue estimators fail with 404 exactly when the appointment id is
absent; for any present appointment they succeed with the computed count + 1
(hence at least 1) and 15 times that, with no condition on the appointment's
own status. -/
theorem queue_position_total_on_present :
    ∀ (s : Store) (aid : Nat),
      (get_queue_position s aid = .error ⟨404, "Appointment not found"⟩ ↔
        ∀ a ∈ s.appointments, a.id ≠ aid) ∧
      (get_estimated_wait_time s aid = .error ⟨404, "Appointment not found"⟩ ↔
        ∀ a ∈ s.appointments, a.id ≠ aid) ∧
      (∀ a : Appointment, find_appointment s aid = some a →
        get_queue_position s aid = .ok (s.appointments.countP (queue_pred a) + 1) ∧
        1 ≤ s.appointments.countP (queue_pred a) + 1 ∧
        get_estimated_wait_time s aid =
          .ok ((s.appointments.countP (queue_pred a) + 1) * 15)) := by
  intro s aid
  have habsent : find_appointment s aid = none ↔ ∀ a ∈ s.appointments, a.id ≠ aid := by
    unfold find_appointment
    rw [List.find?_eq_none]
    constructor
    · intro h a ha
      have := h a ha
      simpa using this
    · intro h a ha
      simpa using h a ha
  refine ⟨?_, ?_, ?_⟩
  · constructor
    · intro herr
      rw [← habsent]
      unfold get_queue_position at herr
      cases hfind : find_appointment s aid with
      | none => rfl
      | some a => rw [hfind] at herr; cases herr
    · intro h
      unfold get_queue_position
      rw [habsent.mpr h]
  · constructor
    · intro herr
      rw [← habsent]
      unfold get_estimated_wait_time get_queue_position at herr
      cases hfind : find_appointment s aid with
      | none => rfl
      | some a => rw [hfind] at herr; cases herr
    · intro h
      unfold get_estimated_wait_time get_queue_position
      rw [habsent.mpr h]
      rfl
  · intro a ha
    refine ⟨get_queue_position_found s aid a ha, by omega, ?_⟩
    unfold get_estimated_wait_time
    rw [get_queue_position_found s aid a ha]
    rfl

/-- A CANCELLED appointment (id 1) for doctor 3 at time 50, with one WAITING
appointment of the same doctor scheduled earlier: the estimator still
computes position 2 for the cancelled appointment. -/
def demo_store_cancelled : Store :=
  { users := [],
    appointments := [⟨1, 2, 3, AppointmentStatus.cancelled, 50⟩,
                     ⟨4, 5, 3, AppointmentStatus.waiting, 10⟩],
    consultations := [], messages := [] }

theorem queue_position_total_on_present_witness :
    get_queue_position demo_store_cancelled 1 = Except.ok 2 ∧
    get_queue_position demo_store_cancelled 99 =
      Except.error ⟨404, "Appointment not found"⟩ := by
  refine ⟨?_, ?_⟩
  · have h := (queue_position_total_on_present demo_store_cancelled 1).2.2
      ⟨1, 2, 3, AppointmentStatus.cancelled, 50⟩ (by decide)
    exact h.1
  · exact ((queue_position_total_on_present demo_store_cancelled 99).1).mpr (by decide)

/-! ## C2: booking collision rule (wired endpoint path: exact-match) -/

/-- C2: when the doctor id resolves to an active doctor, booking fails with
the Conflict error exactly when that doctor already has a WAITING or
IN_PROGRESS appointment at the identical scheduled time; when every
non-terminal appointment of the doctor is at a different time, booking
succeeds and appends a WAITING appointment, notifying the doctor's key. -/
theorem booking_conflict_iff_exact_time :
    ∀ (s : Store) (u : User) (did : Nat) (t : Int) (nid : Nat) (d : User),
      s.users.find? (fun v =>
        decide (v.id = did ∧ v.role = UserRole.doctor ∧ v.is_active = true)) = some d →
      ((create_appointment s u did t nid =
          .error ⟨400, "Doctor already has an appointment at this time"⟩) ↔
        ∃ a ∈ s.appointments, a.doctor_id = did ∧ a.scheduled_time = t ∧
          (a.status = AppointmentStatus.waiting ∨ a.status = AppointmentStatus.in_progress)) ∧
      ((∀ a ∈ s.appointments, a.doctor_id = did →
          (a.status = AppointmentStatus.waiting ∨ a.status = AppointmentStatus.in_progress) →
          a.scheduled_time ≠ t) →
        create_appointment s u did t nid =
          .ok ({ s with appointments := s.appointments ++
              [⟨nid, u.id, did, AppointmentStatus.waiting, t⟩] },
            ⟨nid, u.id, did, AppointmentStatus.waiting, t⟩,
            [(Event.new_appointment nid u.full_name t, SessionKey.doctor did)])) := by
  intro s u did t nid d hdoc
  constructor
  · constructor
    · intro herr
      unfold create_appointment at herr
      rw [hdoc] at herr
      cases hfind : s.appointments.find? (fun a =>
          decide (a.doctor_id = did ∧ a.scheduled_time = t ∧
            (a.status = AppointmentStatus.waiting ∨
              a.status = AppointmentStatus.in_progress))) with
      | none => rw [hfind] at herr; cases herr
      | some a =>
        have hmem := List.mem_of_find?_eq_some hfind
        have hpred := List.find?_some hfind
        simp only [decide_eq_true_eq] at hpred
        exact ⟨a, hmem, hpred⟩
    · intro ⟨a, hmem, hpred⟩
      unfold create_appointment
      rw [hdoc]
      cases hfind : s.appointments.find? (fun a =>
          decide (a.doctor_id = did ∧ a.scheduled_time = t ∧
            (a.status = AppointmentStatus.waiting ∨
              a.status = AppointmentStatus.in_progress))) with
      | none =>
        rw [List.find?_eq_none] at hfind
        exact absurd hpred (by simpa using hfind a hmem)
      | some b => rfl
  · intro hfree
    unfold create_appointment
    rw [hdoc]
    have hfind : s.appointments.find? (fun a =>
        decide (a.doctor_id = did ∧ a.scheduled_time = t ∧
          (a.status = AppointmentStatus.waiting ∨
            a.status = AppointmentStatus.in_progress))) = none := by
      rw [List.find?_eq_none]
      intro a hmem
      simp only [decide_eq_true_eq, not_and]
      intro hdid ht hst
      exact hfree a hmem hdid hst ht
    rw [hfind]

/-- One active doctor (id 5) with a WAITING appointment at time 600. -/
def demo_store_booking : Store :=
  { users := [⟨5, UserRole.doctor, true, "Dr. Demo"⟩],
    appointments := [⟨1, 9, 5, AppointmentStatus.waiting, 600⟩],
    consultations := [], messages := [] }

theorem booking_conflict_iff_exact_time_witness :
    create_appointment demo_store_booking ⟨9, UserRole.patient, true, "Pat"⟩ 5 610 2 =
      Except.ok ({ demo_store_booking with appointments :=
          demo_store_booking.appointments ++ [⟨2, 9, 5, AppointmentStatus.waiting, 610⟩] },
        ⟨2, 9, 5, AppointmentStatus.waiting, 610⟩,
        [(Event.new_appointment 2 "Pat" 610, SessionKey.doctor 5)]) ∧
    create_appointment demo_store_booking ⟨9, UserRole.patient, true, "Pat"⟩ 5 600 2 =
      Except.error ⟨400, "Doctor already has an appointment at this time"⟩ :=
  ⟨(booking_conflict_iff_exact_time demo_store_booking ⟨9, UserRole.patient, true, "Pat"⟩
      5 610 2 ⟨5, UserRole.doctor, true, "Dr. Demo"⟩ (by decide)).2 (by decide),
   ((booking_conflict_iff_exact_time demo_store_booking ⟨9, UserRole.patient, true, "Pat"⟩
      5 600 2 ⟨5, UserRole.doctor, true, "Dr. Demo"⟩ (by decide)).1).mpr (by decide)⟩

/-! ## C4: cancellation -/

theorem find?_map_set {l : List Appointment} {aid : Nat} {a a' : Appointment}
    (h : l.find? (fun x => decide (x.id = aid)) = some a) (hid : a'.id = aid) :
    (l.map (fun x => if x.id = aid then a' else x)).find?
      (fun x => decide (x.id = aid)) = some a' := by
  induction l with
  | nil => cases h
  | cons y ys ih =>
    by_cases hy : y.id = aid
    · simp only [List.map_cons, if_pos hy]
      rw [List.find?_cons_of_pos]
      simpa using hid
    · simp only [List.map_cons, if_neg hy]
      rw [List.find?_cons_of_neg _ (by simpa using hy)]
      rw [List.find?_cons_of_neg _ (by simpa using hy)] at h
      exact ih h

/-- The authorization condition of `cancel_appointment`, with its dead
`role != ADMIN` conjunct dropped. -/
def cancel_forbidden (u : User) (a : Appointment) : Prop :=
  (u.role = UserRole.patient ∧ a.patient_id ≠ u.id) ∨
  (u.role = UserRole.doctor ∧ a.doctor_id ≠ u.id)

instance (u : User) (a : Appointment) : Decidable (cancel_forbidden u a) := by
  unfold cancel_forbidden
  infer_instance

theorem cancel_appointment_found (s : Store) (u : User) (aid : Nat) (a : Appointment)
    (ha : find_appointment s aid = some a) :
    cancel_appointment s u aid =
      if (u.role = UserRole.patient ∧ a.patient_id ≠ u.id) ∨
         (u.role = UserRole.doctor ∧ a.doctor_id ≠ u.id ∧ u.role ≠ UserRole.admin) then
        .error ⟨403, "Not enough permissions"⟩
      else if a.status ≠ AppointmentStatus.waiting then
        .error ⟨400, "Cannot cancel appointment with status " ++ a.status.value⟩
      else
        .ok (set_appointment s aid { a with status := AppointmentStatus.cancelled },
          { a with status := AppointmentStatus.cancelled },
          [(Event.appointment_cancelled a.id, SessionKey.patient a.patient_id),
           (Event.appointment_cancelled a.id, SessionKey.doctor a.doctor_id)]) := by
  unfold cancel_appointment
  rw [ha]

/-- C4 (amended): cancel fails with 404 when the appointment is absent; fails
with 403 exactly when the requester is a patient other than the owning
patient or a doctor other than the owning doctor — an admin requester is
never rejected by the ownership check; fails with the invalid-state 400 error
unless the status is WAITING; on success only the status changes (to
CANCELLED); and cancelling twice succeeds once, the second call failing with
the invalid-state error. -/
theorem cancel_characterization :
    ∀ (s : Store) (u : User) (aid : Nat),
      (find_appointment s aid = none →
        cancel_appointment s u aid = .error ⟨404, "Appointment not found"⟩) ∧
      (∀ a : Appointment, find_appointment s aid = some a →
        ((cancel_appointment s u aid = .error ⟨403, "Not enough permissions"⟩) ↔
          cancel_forbidden u a) ∧
        (¬ cancel_forbidden u a →
          (a.status ≠ AppointmentStatus.waiting →
            cancel_appointment s u aid =
              .error ⟨400, "Cannot cancel appointment with status " ++ a.status.value⟩) ∧
          (a.status = AppointmentStatus.waiting →
            cancel_appointment s u aid =
              .ok (set_appointment s aid { a with status := AppointmentStatus.cancelled },
                { a with status := AppointmentStatus.cancelled },
                [(Event.appointment_cancelled a.id, SessionKey.patient a.patient_id),
                 (Event.appointment_cancelled a.id, SessionKey.doctor a.doctor_id)])))) ∧
      (∀ (s' : Store) (x : Appointment) (ev : Sends),
        cancel_appointment s u aid = .ok (s', x, ev) →
        cancel_appointment s' u aid =
          .error ⟨400, "Cannot cancel appointment with status cancelled"⟩) := by
  intro s u aid
  have hcond : ∀ a : Appointment,
      ((u.role = UserRole.patient ∧ a.patient_id ≠ u.id) ∨
        (u.role = UserRole.doctor ∧ a.doctor_id ≠ u.id ∧ u.role ≠ UserRole.admin)) ↔
      cancel_forbidden u a := by
    intro a
    unfold cancel_forbidden
    constructor
    · rintro (h | ⟨h1, h2, _⟩)
      · exact Or.inl h
      · exact Or.inr ⟨h1, h2⟩
    · rintro (h | ⟨h1, h2⟩)
      · exact Or.inl h
      · exact Or.inr ⟨h1, h2, by rw [h1]; intro hcontra; cases hcontra⟩
  refine ⟨?_, ?_, ?_⟩
  · intro hnone
    unfold cancel_appointment
    rw [hnone]
  · intro a ha
    rw [cancel_appointment_found s u aid a ha]
    refine ⟨?_, ?_⟩
    · constructor
      · intro herr
        by_cases hforb : (u.role = UserRole.patient ∧ a.patient_id ≠ u.id) ∨
            (u.role = UserRole.doctor ∧ a.doctor_id ≠ u.id ∧ u.role ≠ UserRole.admin)
        · exact (hcond a).mp hforb
        · rw [if_neg hforb] at herr
          by_cases hst : a.status ≠ AppointmentStatus.waiting
          · rw [if_pos hst] at herr
            cases herr
          · rw [if_neg hst] at herr
            cases herr
      · intro hforb
        rw [if_pos ((hcond a).mpr hforb)]
    · intro hnf
      have hnf' : ¬ ((u.role = UserRole.patient ∧ a.patient_id ≠ u.id) ∨
          (u.role = UserRole.doctor ∧ a.doctor_id ≠ u.id ∧ u.role ≠ UserRole.admin)) :=
        fun h => hnf ((hcond a).mp h)
      rw [if_neg hnf']
      refine ⟨?_, ?_⟩
      · intro hst
        rw [if_pos hst]
      · intro hst
        rw [if_neg (by simp [hst])]
  · intro s' x ev hok
    cases ha : find_appointment s aid with
    | none =>
      unfold cancel_appointment at hok
      rw [ha] at hok
      cases hok
    | some a =>
      rw [cancel_appointment_found s u aid a ha] at hok
      by_cases hforb : (u.role = UserRole.patient ∧ a.patient_id ≠ u.id) ∨
          (u.role = UserRole.doctor ∧ a.doctor_id ≠ u.id ∧ u.role ≠ UserRole.admin)
      · rw [if_pos hforb] at hok; cases hok
      · rw [if_neg hforb] at hok
        by_cases hst : a.status ≠ AppointmentStatus.waiting
        · rw [if_pos hst] at hok; cases hok
        · rw [if_neg hst] at hok
          have hs' : s' = set_appointment s aid
              { a with status := AppointmentStatus.cancelled } := by
            cases hok; rfl
          have haid : a.id = aid := by
            have := List.find?_some ha
            simpa using this
          have hfind' : find_appointment s' aid =
              some { a with status := AppointmentStatus.cancelled } := by
            rw [hs']
            unfold find_appointment set_appointment
            exact find?_map_set ha haid
          rw [cancel_appointment_found s' u aid _ hfind']
          rw [if_neg (by simpa using hforb)]
          rw [if_pos (by simp)]
          rfl

/-- A WAITING appointment (id 1) owned by patient 2 and doctor 3. -/
def demo_store_cancel : Store :=
  { users := [], appointments := [⟨1, 2, 3, AppointmentStatus.waiting, 100⟩],
    consultations := [], messages := [] }

/-- Admin requester, id 9 — neither the owning patient nor the owning
doctor. -/
def demo_admin : User := ⟨9, UserRole.admin, true, "Root"⟩

/-- C4 as frozen is refuted: requester 9 is neither the owning patient (2)
nor the owning doctor (3), yet `cancel` does not fail with Forbidden — it
succeeds and cancels the appointment. -/
theorem cancel_admin_bypass_counterexample :
    demo_admin.id ≠ 2 ∧ demo_admin.id ≠ 3 ∧
    cancel_appointment demo_store_cancel demo_admin 1 =
      Except.ok ({ demo_store_cancel with
          appointments := [⟨1, 2, 3, AppointmentStatus.cancelled, 100⟩] },
        ⟨1, 2, 3, AppointmentStatus.cancelled, 100⟩,
        [(Event.appointment_cancelled 1, SessionKey.patient 2),
         (Event.appointment_cancelled 1, SessionKey.doctor 3)]) :=
  ⟨by decide, by decide, by rfl⟩

theorem cancel_characterization_witness :
    cancel_appointment demo_store_cancel ⟨2, UserRole.patient, true, "Pat"⟩ 1 =
      Except.ok ({ demo_store_cancel with
          appointments := [⟨1, 2, 3, AppointmentStatus.cancelled, 100⟩] },
        ⟨1, 2, 3, AppointmentStatus.cancelled, 100⟩,
        [(Event.appointment_cancelled 1, SessionKey.patient 2),
         (Event.appointment_cancelled 1, SessionKey.doctor 3)]) ∧
    cancel_appointment { demo_store_cancel with
        appointments := [⟨1, 2, 3, AppointmentStatus.cancelled, 100⟩] }
        ⟨2, UserRole.patient, true, "Pat"⟩ 1 =
      Except.error ⟨400, "Cannot cancel appointment with status cancelled"⟩ :=
  ⟨((cancel_characterization demo_store_cancel ⟨2, UserRole.patient, true, "Pat"⟩ 1).2.1
      ⟨1, 2, 3, AppointmentStatus.waiting, 100⟩ (by decide)).2 (by decide) |>.2 (by decide),
   (cancel_characterization demo_store_cancel ⟨2, UserRole.patient, true, "Pat"⟩ 1).2.2
      { demo_store_cancel with
        appointments := [⟨1, 2, 3, AppointmentStatus.cancelled, 100⟩] }
      ⟨1, 2, 3, AppointmentStatus.cancelled, 100⟩
      [(Event.appointment_cancelled 1, SessionKey.patient 2),
       (Event.appointment_cancelled 1, SessionKey.doctor 3)] (by rfl)⟩

/-! ## C5: consultation start -/

theorem start_consultation_found (s : Store) (u : User) (aid : Nat)
    (ty : ConsultationType) (nid : Nat) (now : Int) (a : Appointment)
    (ha : find_appointment s aid = some a) :
    start_consultation s u aid ty nid now =
      if u.id ≠ a.patient_id ∧ u.id ≠ a.doctor_id then
        .error ⟨403, "Not enough permissions"⟩
      else if a.status ≠ AppointmentStatus.waiting then
        .error ⟨400, "Cannot start consultation for appointment with status " ++ a.status.value⟩
      else
        match s.consultations.find? (fun c => decide (c.appointment_id = aid)) with
        | some _ => .error ⟨400, "Consultation already exists for this appointment"⟩
        | none =>
          .ok ({ set_appointment s aid { a with status := AppointmentStatus.in_progress } with
                  consultations := s.consultations ++ [⟨nid, aid, ty, some now, none, none⟩] },
            ⟨nid, aid, ty, some now, none, none⟩,
            [(Event.consultation_started nid aid ty, SessionKey.patient a.patient_id),
             (Event.consultation_started nid aid ty, SessionKey.doctor a.doctor_id)]) := by
  unfold start_consultation
  rw [ha]

/-- C5: start fails with 403 exactly when the requester is neither the owning
patient nor the owning doctor; with the invalid-state 400 error unless the
appointment is WAITING; with the conflict 400 error when a consultation
already exists for the appointment; on success exactly one consultation for
the appointment exists afterwards, with `started_at` set and `ended_at`
unset, and the appointment is IN_PROGRESS; a second start on the resulting
store fails with the invalid-state error, leaving everything as is. -/
theorem start_consultation_characterization :
    ∀ (s : Store) (u : User) (aid : Nat) (ty : ConsultationType) (nid : Nat) (now : Int)
      (a : Appointment), find_appointment s aid = some a →
      ((start_consultation s u aid ty nid now = .error ⟨403, "Not enough permissions"⟩) ↔
        (u.id ≠ a.patient_id ∧ u.id ≠ a.doctor_id)) ∧
      ((u.id = a.patient_id ∨ u.id = a.doctor_id) →
        (a.status ≠ AppointmentStatus.waiting →
          start_consultation s u aid ty nid now =
            .error ⟨400, "Cannot start consultation for appointment with status " ++
              a.status.value⟩) ∧
        (a.status = AppointmentStatus.waiting →
          (∀ c : Consultation,
            s.consultations.find? (fun c => decide (c.appointment_id = aid)) = some c →
            start_consultation s u aid ty nid now =
              .error ⟨400, "Consultation already exists for this appointment"⟩) ∧
          (s.consultations.find? (fun c => decide (c.appointment_id = aid)) = none →
            ∀ (s' : Store) (x : Consultation) (ev : Sends),
              start_consultation s u aid ty nid now = .ok (s', x, ev) →
              x.started_at = some now ∧ x.ended_at = none ∧
              s'.consultations.countP (fun c => decide (c.appointment_id = aid)) = 1 ∧
              find_appointment s' aid =
                some { a with status := AppointmentStatus.in_progress } ∧
              (∀ (nid2 : Nat) (now2 : Int),
                start_consultation s' u aid ty nid2 now2 =
                  .error ⟨400,
                    "Cannot start consultation for appointment with status in_progress"⟩)))) := by
  intro s u aid ty nid now a ha
  refine ⟨?_, ?_⟩
  · rw [start_consultation_found s u aid ty nid now a ha]
    constructor
    · intro herr
      by_cases hauth : u.id ≠ a.patient_id ∧ u.id ≠ a.doctor_id
      · exact hauth
      · rw [if_neg hauth] at herr
        by_cases hst : a.status ≠ AppointmentStatus.waiting
        · rw [if_pos hst] at herr
          cases herr
        · rw [if_neg hst] at herr
          cases hc : s.consultations.find? (fun c => decide (c.appointment_id = aid)) with
          | some c => rw [hc] at herr; cases herr
          | none => rw [hc] at herr; cases herr
    · intro hauth
      rw [if_pos hauth]
  · intro hauth
    have hauth' : ¬ (u.id ≠ a.patient_id ∧ u.id ≠ a.doctor_id) := by
      rcases hauth with h | h
      · intro hcontra; exact hcontra.1 h
      · intro hcontra; exact hcontra.2 h
    refine ⟨?_, ?_⟩
    · intro hst
      rw [start_consultation_found s u aid ty nid now a ha, if_neg hauth', if_pos hst]
    · intro hst
      refine ⟨?_, ?_⟩
      · intro c hc
        rw [start_consultation_found s u aid ty nid now a ha, if_neg hauth',
          if_neg (by simp [hst]), hc]
      · intro hc s' x ev hok
        rw [start_consultation_found s u aid ty nid now a ha, if_neg hauth',
          if_neg (by simp [hst]), hc] at hok
        have hs' : s' = { set_appointment s aid
            { a with status := AppointmentStatus.in_progress } with
            consultations := s.consultations ++ [⟨nid, aid, ty, some now, none, none⟩] } := by
          cases hok; rfl
        have hx : x = ⟨nid, aid, ty, some now, none, none⟩ := by
          cases hok; rfl
        have haid : a.id = aid := by
          have := List.find?_some ha
          simpa using this
        have hcount0 : s.consultations.countP (fun c => decide (c.appointment_id = aid)) = 0 := by
          rw [List.countP_eq_zero]
          intro c hcmem
          rw [List.find?_eq_none] at hc
          exact hc c hcmem
        have hcount : s'.consultations.countP (fun c => decide (c.appointment_id = aid)) = 1 := by
          rw [hs']
          simp only [List.countP_append, hcount0]
          simp
        have hfind' : find_appointment s' aid =
            some { a with status := AppointmentStatus.in_progress } := by
          rw [hs']
          unfold find_appointment set_appointment
          exact find?_map_set ha haid
        refine ⟨by rw [hx], by rw [hx], hcount, hfind', ?_⟩
        intro nid2 now2
        rw [start_consultation_found s' u aid ty nid2 now2 _ hfind', if_neg (by simpa using hauth')]
        rw [if_pos (by simp)]
        rfl

/-- A WAITING appointment (id 1) owned by patient 2 and doctor 3, no
consultations yet. -/
def demo_store_start : Store :=
  { users := [], appointments := [⟨1, 2, 3, AppointmentStatus.waiting, 100⟩],
    consultations := [], messages := [] }

theorem start_consultation_characterization_witness :
    start_consultation demo_store_start ⟨3, UserRole.doctor, true, "Dr"⟩ 1
        ConsultationType.chat 7 100 =
      Except.ok ({ demo_store_start with
          appointments := [⟨1, 2, 3, AppointmentStatus.in_progress, 100⟩],
          consultations := [⟨7, 1, ConsultationType.chat, some 100, none, none⟩] },
        ⟨7, 1, ConsultationType.chat, some 100, none, none⟩,
        [(Event.consultation_started 7 1 ConsultationType.chat, SessionKey.patient 2),
         (Event.consultation_started 7 1 ConsultationType.chat, SessionKey.doctor 3)]) ∧
    start_consultation { demo_store_start with
        appointments := [⟨1, 2, 3, AppointmentStatus.in_progress, 100⟩],
        consultations := [⟨7, 1, ConsultationType.chat, some 100, none, none⟩] }
      ⟨3, UserRole.doctor, true, "Dr"⟩ 1 ConsultationType.chat 8 200 =
      Except.error ⟨400,
        "Cannot start consultation for appointment with status in_progress"⟩ := by
  have h := (start_consultation_characterization demo_store_start
      ⟨3, UserRole.doctor, true, "Dr"⟩ 1 ConsultationType.chat 7 100
      ⟨1, 2, 3, AppointmentStatus.waiting, 100⟩ (by decide)).2
      (Or.inr (by decide)) |>.2 (by decide) |>.2 (by decide)
  have hok := h ({ demo_store_start with
      appointments := [⟨1, 2, 3, AppointmentStatus.in_progress, 100⟩],
      consultations := [⟨7, 1, ConsultationType.chat, some 100, none, none⟩] })
    ⟨7, 1, ConsultationType.chat, some 100, none, none⟩
    [(Event.consultation_started 7 1 ConsultationType.chat, SessionKey.patient 2),
     (Event.consultation_started 7 1 ConsultationType.chat, SessionKey.doctor 3)] (by rfl)
  exact ⟨by rfl, hok.2.2.2.2 8 200⟩

/-! ## C6: message fanout -/

theorem create_message_found (s : Store) (u : User) (cid : Nat) (text : String)
    (nid : Nat) (now : Int) (c : Consultation) (a : Appointment)
    (hc : find_consultation s cid = some c)
    (ha : find_appointment s c.appointment_id = some a) :
    create_message s u cid text nid now =
      if u.id ≠ a.patient_id ∧ u.id ≠ a.doctor_id then
        .error ⟨403, "Not enough permissions"⟩
      else if c.ended_at ≠ none then
        .error ⟨400, "Cannot send message to ended consultation"⟩
      else
        .ok ({ s with messages := s.messages ++ [⟨nid, cid, u.id, text, now⟩] },
          ⟨nid, cid, u.id, text, now⟩,
          [(Event.new_message nid u.id u.full_name text now,
            SessionKey.user (if u.id = a.doctor_id then a.patient_id else a.doctor_id))]) := by
  unfold create_message
  rw [hc]
  dsimp only
  rw [ha]

/-- Patient 2, the sender in the counterexample. -/
def demo_patient : User := ⟨2, UserRole.patient, true, "Pat"⟩

/-- The appointment behind consultation 7: patient 2, doctor 3. -/
def demo_appt : Appointment := ⟨1, 2, 3, AppointmentStatus.in_progress, 100⟩

/-- Consultation 7 for appointment 1 whose `ended_at` is already set. -/
def demo_store_chat : Store :=
  { users := [demo_patient, ⟨3, UserRole.doctor, true, "Doc"⟩],
    appointments := [demo_appt],
    consultations := [⟨7, 1, ConsultationType.chat, some 10, some 50, none⟩],
    messages := [] }

/-- C6 as frozen is refuted on the chat-WebSocket receive path: patient 2
sends "hi" on the chat channel of the ended consultation 7; the loop emits
the `new_message` event to BOTH chat keys — `chat_7_2` is the sender's own
session key — and appends the message although `ended_at = some 50`. -/
theorem chat_fanout_counterexample :
    demo_patient.id = 2 ∧
    find_consultation demo_store_chat 7 =
      some ⟨7, 1, ConsultationType.chat, some 10, some 50, none⟩ ∧
    (chat_process_message demo_store_chat demo_patient 7 demo_appt (some "hi") 99 200).2.map
        Prod.snd = [SessionKey.chat 7 2, SessionKey.chat 7 3] ∧
    (chat_process_message demo_store_chat demo_patient 7 demo_appt (some "hi") 99 200).1.messages =
      demo_store_chat.messages ++ [⟨99, 7, 2, "hi", 200⟩] :=
  ⟨by decide, by rfl, by rfl, by rfl⟩

/-- C6 (amended): on the REST `create_message` path a successful append emits
the `new_message` event only to the other participant's `user_{id}` key —
never to the sender's own key when patient and doctor differ — and an ended
consultation is rejected with the invalid-state 400 error; the chat-WebSocket
receive path, by contrast, fans the event out to both participants' chat
keys (including the sender's own) and performs no ended-at check. -/
theorem message_fanout_characterization :
    (∀ (s : Store) (u : User) (cid : Nat) (text : String) (nid : Nat) (now : Int)
      (c : Consultation) (a : Appointment),
      find_consultation s cid = some c →
      find_appointment s c.appointment_id = some a →
      (u.id = a.patient_id ∨ u.id = a.doctor_id) →
      (c.ended_at = none →
        ∀ (s' : Store) (m : Message) (ev : Sends),
          create_message s u cid text nid now = .ok (s', m, ev) →
          ev = [(Event.new_message nid u.id u.full_name text now,
            SessionKey.user (if u.id = a.doctor_id then a.patient_id else a.doctor_id))] ∧
          (a.patient_id ≠ a.doctor_id → ∀ p ∈ ev, p.2 ≠ SessionKey.user u.id) ∧
          s'.messages = s.messages ++ [⟨nid, cid, u.id, text, now⟩]) ∧
      (∀ e : Int, c.ended_at = some e →
        create_message s u cid text nid now =
          .error ⟨400, "Cannot send message to ended consultation"⟩)) ∧
    (∀ (s : Store) (u : User) (cid : Nat) (appt : Appointment) (text : String)
      (nid : Nat) (now : Int),
      (chat_process_message s u cid appt (some text) nid now).2.map Prod.snd =
        [SessionKey.chat cid appt.patient_id, SessionKey.chat cid appt.doctor_id] ∧
      (chat_process_message s u cid appt (some text) nid now).1.messages =
        s.messages ++ [⟨nid, cid, u.id, text, now⟩]) := by
  constructor
  · intro s u cid text nid now c a hc ha hauth
    have hauth' : ¬ (u.id ≠ a.patient_id ∧ u.id ≠ a.doctor_id) := by
      rcases hauth with h | h
      · intro hcontra; exact hcontra.1 h
      · intro hcontra; exact hcontra.2 h
    constructor
    · intro hend s' m ev hok
      rw [create_message_found s u cid text nid now c a hc ha, if_neg hauth',
        if_neg (by simp [hend])] at hok
      have hev : ev = [(Event.new_message nid u.id u.full_name text now,
          SessionKey.user (if u.id = a.doctor_id then a.patient_id else a.doctor_id))] := by
        cases hok; rfl
      have hs' : s' = { s with messages := s.messages ++ [⟨nid, cid, u.id, text, now⟩] } := by
        cases hok; rfl
      refine ⟨hev, ?_, by rw [hs']⟩
      intro hne p hp
      rw [hev] at hp
      rcases List.mem_singleton.mp hp with rfl
      simp only
      by_cases hdoc : u.id = a.doctor_id
      · rw [if_pos hdoc]
        simp only [ne_eq, SessionKey.user.injEq]
        intro hcontra
        exact hne (hcontra.trans hdoc)
      · rw [if_neg hdoc]
        simp only [ne_eq, SessionKey.user.injEq]
        intro hcontra
        exact hdoc hcontra.symm
    · intro e hend
      rw [create_message_found s u cid text nid now c a hc ha, if_neg hauth',
        if_pos (by simp [hend])]
  · intro s u cid appt text nid now
    exact ⟨rfl, rfl⟩

/-- Consultation 7 still live (`ended_at = none`). -/
def demo_store_msg : Store :=
  { users := [demo_patient, ⟨3, UserRole.doctor, true, "Doc"⟩],
    appointments := [demo_appt],
    consultations := [⟨7, 1, ConsultationType.chat, some 10, none, none⟩],
    messages := [] }

theorem message_fanout_characterization_witness :
    ((chat_process_message demo_store_msg demo_patient 7 demo_appt (some "yo") 42 300).2.map
        Prod.snd = [SessionKey.chat 7 2, SessionKey.chat 7 3]) ∧
    create_message demo_store_chat demo_patient 7 "late" 43 400 =
      Except.error ⟨400, "Cannot send message to ended consultation"⟩ :=
  ⟨(message_fanout_characterization.2 demo_store_msg demo_patient 7 demo_appt "yo" 42 300).1,
   (message_fanout_characterization.1 demo_store_chat demo_patient 7 "late" 43 400
      ⟨7, 1, ConsultationType.chat, some 10, some 50, none⟩ demo_appt
      (by rfl) (by rfl) (Or.inl (by decide))).2 50 (by decide)⟩

/-! ## C8: message retrieval order and history replay -/

theorem consultation_messages_sorted_pairwise (s : Store) (cid : Nat) :
    (consultation_messages_sorted s cid).Pairwise
      (fun m1 m2 => m1.timestamp ≤ m2.timestamp) := by
  unfold consultation_messages_sorted
  have h := @List.sorted_mergeSort Message
    (fun m1 m2 : Message => decide (m1.timestamp ≤ m2.timestamp))
    (fun a b c hab hbc => by
      simp only [decide_eq_true_eq] at hab hbc ⊢
      exact le_trans hab hbc)
    (fun a b => by
      simp only [Bool.or_eq_true, decide_eq_true_eq]
      exact le_total a.timestamp b.timestamp)
    (s.messages.filter (fun m => decide (m.consultation_id = cid)))
  exact h.imp (fun hab => by simpa using hab)

theorem consultation_messages_sorted_perm (s : Store) (cid : Nat) :
    List.Perm (consultation_messages_sorted s cid)
      (s.messages.filter (fun m => decide (m.consultation_id = cid))) :=
  List.mergeSort_perm _ _

/-- C8: messages returned for a consultation are non-decreasing in timestamp
and are exactly the consultation's stored messages; the history replay on a
new chat connection emits, in timestamp order, one `history_message` per
stored message of the consultation, every one of them addressed to the
newly connected `chat_{cid}_{uid}` key and to no other key. -/
theorem message_order_and_replay :
    (∀ (s : Store) (u : User) (cid : Nat) (msgs : List Message),
      get_consultation_messages s u cid = .ok msgs →
      msgs.Pairwise (fun m1 m2 => m1.timestamp ≤ m2.timestamp) ∧
      List.Perm msgs (s.messages.filter (fun m => decide (m.consultation_id = cid)))) ∧
    (∀ (s : Store) (cid uid : Nat),
      (∀ p ∈ chat_replay_history s cid uid, p.2 = SessionKey.chat cid uid) ∧
      (∃ l : List Message,
        List.Perm l (s.messages.filter (fun m => decide (m.consultation_id = cid))) ∧
        l.Pairwise (fun m1 m2 => m1.timestamp ≤ m2.timestamp) ∧
        chat_replay_history s cid uid = l.map (fun m =>
          (Event.history_message m.id m.sender_id (sender_name s m.sender_id)
            m.message m.timestamp,
           SessionKey.chat cid uid)))) := by
  constructor
  · intro s u cid msgs hok
    have hmsgs : msgs = consultation_messages_sorted s cid := by
      unfold get_consultation_messages at hok
      cases hc : find_consultation s cid with
      | none => rw [hc] at hok; cases hok
      | some c =>
        rw [hc] at hok
        dsimp only at hok
        cases ha : find_appointment s c.appointment_id with
        | none => rw [ha] at hok; cases hok
        | some a =>
          rw [ha] at hok
          dsimp only at hok
          by_cases hforb : u.id ≠ a.patient_id ∧ u.id ≠ a.doctor_id ∧
              u.role ≠ UserRole.admin
          · rw [if_pos hforb] at hok; cases hok
          · rw [if_neg hforb] at hok
            cases hok
            rfl
    rw [hmsgs]
    exact ⟨consultation_messages_sorted_pairwise s cid,
      consultation_messages_sorted_perm s cid⟩
  · intro s cid uid
    constructor
    · intro p hp
      unfold chat_replay_history at hp
      rcases List.mem_map.mp hp with ⟨m, _, rfl⟩
      rfl
    · exact ⟨consultation_messages_sorted s cid,
        consultation_messages_sorted_perm s cid,
        consultation_messages_sorted_pairwise s cid, rfl⟩

/-- Consultation 7 with two stored messages whose insertion order disagrees
with timestamp order. -/
def demo_store_replay : Store :=
  { users := [demo_patient, ⟨3, UserRole.doctor, true, "Doc"⟩],
    appointments := [demo_appt],
    consultations := [⟨7, 1, ConsultationType.chat, some 10, none, none⟩],
    messages := [⟨1, 7, 2, "b", 200⟩, ⟨2, 7, 3, "a", 100⟩] }

theorem message_order_and_replay_witness :
    get_consultation_messages demo_store_replay demo_patient 7 =
      Except.ok [⟨2, 7, 3, "a", 100⟩, ⟨1, 7, 2, "b", 200⟩] ∧
    ([⟨2, 7, 3, "a", 100⟩, ⟨1, 7, 2, "b", 200⟩] : List Message).Pairwise
      (fun m1 m2 => m1.timestamp ≤ m2.timestamp) := by
  have hok : get_consultation_messages demo_store_replay demo_patient 7 =
      Except.ok [⟨2, 7, 3, "a", 100⟩, ⟨1, 7, 2, "b", 200⟩] := by
    simp [get_consultation_messages, find_consultation, find_appointment,
      consultation_messages_sorted, demo_store_replay, demo_patient, demo_appt,
      List.mergeSort, List.find?]
  exact ⟨hok,
    (message_order_and_replay.1 demo_store_replay demo_patient 7
      [⟨2, 7, 3, "a", 100⟩, ⟨1, 7, 2, "b", 200⟩] hok).1⟩

/-! ## C7: connection registry -/

theorem countP_key_eq_one (l : List (String × Nat)) (key : String)
    (hnd : (l.map Prod.fst).Nodup)
    (hany : l.any (fun p => decide (p.1 = key)) = true) :
    l.countP (fun p => decide (p.1 = key)) = 1 := by
  induction l with
  | nil => cases hany
  | cons h t ih =>
    rw [List.countP_cons]
    by_cases hk : h.1 = key
    · have hnotin : key ∉ t.map Prod.fst := by
        rw [List.map_cons, List.nodup_cons] at hnd
        rw [← hk]
        exact hnd.1
      have ht : t.countP (fun p => decide (p.1 = key)) = 0 := by
        rw [List.countP_eq_zero]
        intro p hp
        simp only [decide_eq_true_eq]
        intro hcontra
        exact hnotin (hcontra ▸ List.mem_map_of_mem Prod.fst hp)
      simp [hk, ht]
    · have hany' : t.any (fun p => decide (p.1 = key)) = true := by
        rw [List.any_cons] at hany
        simpa [hk] using hany
      have := ih (by rw [List.map_cons, List.nodup_cons] at hnd; exact hnd.2) hany'
      simp [hk, this]

theorem find?_key_replace (l : List (String × Nat)) (key : String) (conn : Nat)
    (hany : l.any (fun p => decide (p.1 = key)) = true) :
    (l.map (fun p => if p.1 = key then (key, conn) else p)).find?
      (fun p => decide (p.1 = key)) = some (key, conn) := by
  induction l with
  | nil => cases hany
  | cons h t ih =>
    by_cases hk : h.1 = key
    · simp only [List.map_cons, if_pos hk]
      rw [List.find?_cons_of_pos]
      simp
    · simp only [List.map_cons, if_neg hk]
      rw [List.find?_cons_of_neg _ (by simpa using hk)]
      have hany' : t.any (fun p => decide (p.1 = key)) = true := by
        rw [List.any_cons] at hany
        simpa [hk] using hany
      exact ih hany'

theorem find?_key_append_fresh (l : List (String × Nat)) (key : String) (conn : Nat)
    (hnone : l.any (fun p => decide (p.1 = key)) = false) :
    (l ++ [(key, conn)]).find? (fun p => decide (p.1 = key)) = some (key, conn) := by
  induction l with
  | nil =>
    simp only [List.nil_append]
    rw [List.find?_cons_of_pos]
    simp
  | cons h t ih =>
    rw [List.any_cons] at hnone
    simp only [Bool.or_eq_false_iff] at hnone
    rw [List.cons_append, List.find?_cons_of_neg _ (by simpa using hnone.1)]
    exact ih hnone.2

theorem connect_state_replace (m : ConnectionManager) (key : String) (conn : Nat)
    (hany : m.active_connections.any (fun p => decide (p.1 = key)) = true) :
    (m.connect key conn).1.active_connections =
      m.active_connections.map (fun p => if p.1 = key then (key, conn) else p) := by
  unfold ConnectionManager.connect
  simp only
  rw [if_pos hany]

theorem connect_state_append (m : ConnectionManager) (key : String) (conn : Nat)
    (hany : m.active_connections.any (fun p => decide (p.1 = key)) = false) :
    (m.connect key conn).1.active_connections =
      m.active_connections ++ [(key, conn)] := by
  unfold ConnectionManager.connect
  simp only
  rw [if_neg (by simp [hany])]

/-- C7: with key-unique registry state, `connect` leaves exactly one
registered connection for the key — the new one — and hands back the
superseded connection (to be closed) exactly when the key was live;
key-uniqueness is preserved; `disconnect` removes the key's mapping, is a
no-op when the key is absent, and is idempotent. -/
theorem connection_registry_single_per_key :
    ∀ (m : ConnectionManager) (key : String) (conn : Nat),
      ((m.active_connections.map Prod.fst).Nodup →
        (m.connect key conn).1.active_connections.countP (fun p => decide (p.1 = key)) = 1 ∧
        (m.connect key conn).1.lookup key = some conn ∧
        ((m.connect key conn).1.active_connections.map Prod.fst).Nodup) ∧
      (m.connect key conn).2 = m.lookup key ∧
      (m.lookup key = none → m.disconnect key = m) ∧
      (m.disconnect key).lookup key = none ∧
      (m.disconnect key).disconnect key = m.disconnect key := by
  intro m key conn
  refine ⟨?_, rfl, ?_, ?_, ?_⟩
  · intro hnd
    by_cases hany : m.active_connections.any (fun p => decide (p.1 = key)) = true
    · rw [connect_state_replace m key conn hany]
      refine ⟨?_, ?_, ?_⟩
      · have hcc : List.countP ((fun q : String × Nat => decide (q.1 = key)) ∘
            (fun p => if p.1 = key then (key, conn) else p)) m.active_connections =
            List.countP (fun p => decide (p.1 = key)) m.active_connections := by
          apply List.countP_congr
          intro p _
          by_cases hk : p.1 = key
          · simp [hk]
          · simp [hk]
        rw [List.countP_map, hcc]
        exact countP_key_eq_one m.active_connections key hnd hany
      · unfold ConnectionManager.lookup
        rw [connect_state_replace m key conn hany]
        rw [find?_key_replace m.active_connections key conn hany]
        rfl
      · have heq : (m.active_connections.map
            (fun p => if p.1 = key then (key, conn) else p)).map Prod.fst =
            m.active_connections.map Prod.fst := by
          rw [List.map_map]
          apply List.map_congr_left
          intro p _
          by_cases hk : p.1 = key
          · simp [hk]
          · simp [hk]
        rw [heq]
        exact hnd
    · rw [Bool.not_eq_true] at hany
      rw [connect_state_append m key conn hany]
      refine ⟨?_, ?_, ?_⟩
      · rw [List.countP_append]
        have h0 : m.active_connections.countP (fun p => decide (p.1 = key)) = 0 := by
          rw [List.countP_eq_zero]
          intro p hp
          have := List.any_eq_false.mp hany p hp
          simpa using this
        simp [h0]
      · unfold ConnectionManager.lookup
        rw [connect_state_append m key conn hany]
        rw [find?_key_append_fresh m.active_connections key conn hany]
        rfl
      · rw [List.map_append]
        rw [List.nodup_append]
        refine ⟨hnd, by simp, ?_⟩
        intro k hk hk'
        simp only [List.map_cons, List.map_nil, List.mem_singleton] at hk'
        subst hk'
        rcases List.mem_map.mp hk with ⟨p, hp, hpk⟩
        have := List.any_eq_false.mp hany p hp
        simp only [decide_eq_true_eq] at this
        exact this hpk
  · intro hnone
    unfold ConnectionManager.disconnect
    unfold ConnectionManager.lookup at hnone
    have hfind : m.active_connections.find? (fun p => decide (p.1 = key)) = none := by
      cases hfind : m.active_connections.find? (fun p => decide (p.1 = key)) with
      | none => rfl
      | some p => rw [hfind] at hnone; cases hnone
    rw [List.find?_eq_none] at hfind
    have heq : m.active_connections.filter (fun p => decide (¬ p.1 = key)) =
        m.active_connections := by
      rw [List.filter_eq_self]
      intro p hp
      have := hfind p hp
      simpa using this
    rw [heq]
  · unfold ConnectionManager.disconnect ConnectionManager.lookup
    have hfind : (m.active_connections.filter (fun p => decide (¬ p.1 = key))).find?
        (fun p => decide (p.1 = key)) = none := by
      rw [List.find?_eq_none]
      intro p hp
      have := (List.mem_filter.mp hp).2
      simpa using this
    rw [hfind]
    rfl
  · unfold ConnectionManager.disconnect
    rw [List.filter_filter]
    congr 1
    apply List.filter_congr
    intro p _
    by_cases hk : p.1 = key
    · simp [hk]
    · simp [hk]

/-- A registry where `doctor_123` is live with connection 11. -/
def demo_manager : ConnectionManager := ⟨[("doctor_123", 11), ("patient_9", 12)]⟩

theorem connection_registry_single_per_key_witness :
    (demo_manager.connect "doctor_123" 99).1.active_connections.countP
      (fun p => decide (p.1 = "doctor_123")) = 1 ∧
    (demo_manager.connect "doctor_123" 99).2 = some 11 :=
  ⟨((connection_registry_single_per_key demo_manager "doctor_123" 99).1 (by decide)).1,
   (connection_registry_single_per_key demo_manager "doctor_123" 99).2.1.trans (by rfl)⟩

/-! ## C3: appointment status transitions -/

/-- The appointment state machine of spec §4.4 (reflexive closure of its
edges): Waiting → InProgress → Completed; Waiting → Cancelled. -/
def allowed_transition (st st' : AppointmentStatus) : Prop :=
  st = st' ∨
  (st = AppointmentStatus.waiting ∧ st' = AppointmentStatus.in_progress) ∨
  (st = AppointmentStatus.in_progress ∧ st' = AppointmentStatus.completed) ∨
  (st = AppointmentStatus.waiting ∧ st' = AppointmentStatus.cancelled)

instance (st st' : AppointmentStatus) : Decidable (allowed_transition st st') := by
  unfold allowed_transition
  infer_instance

/-- The status of the appointment a given id resolves to. -/
def status_of (s : Store) (aid : Nat) : Option AppointmentStatus :=
  (find_appointment s aid).map (fun a => a.status)

theorem find?_append_left {α : Type} {p : α → Bool} {l1 l2 : List α} {a : α}
    (h : l1.find? p = some a) : (l1 ++ l2).find? p = some a := by
  induction l1 with
  | nil => cases h
  | cons y ys ih =>
    by_cases hy : p y = true
    · rw [List.find?_cons_of_pos _ hy] at h
      rw [List.cons_append, List.find?_cons_of_pos _ hy]
      exact h
    · rw [List.find?_cons_of_neg _ (by simpa using hy)] at h
      rw [List.cons_append, List.find?_cons_of_neg _ (by simpa using hy)]
      exact ih h

theorem find?_map_set_ne {l : List Appointment} {aid aid' : Nat} {a' : Appointment}
    (hne : aid' ≠ aid) (hid : a'.id = aid) :
    (l.map (fun x => if x.id = aid then a' else x)).find?
      (fun x => decide (x.id = aid')) = l.find? (fun x => decide (x.id = aid')) := by
  induction l with
  | nil => rfl
  | cons y ys ih =>
    by_cases hy : y.id = aid
    · simp only [List.map_cons, if_pos hy]
      rw [List.find?_cons_of_neg _ (by
          simp only [decide_eq_true_eq]
          intro h
          exact hne (by rw [← h, hid])),
        List.find?_cons_of_neg _ (by
          simp only [decide_eq_true_eq]
          intro h
          exact hne (by rw [← h, hy]))]
      exact ih
    · simp only [List.map_cons, if_neg hy]
      by_cases hy' : y.id = aid'
      · rw [List.find?_cons_of_pos _ (by simpa using hy'),
          List.find?_cons_of_pos _ (by simpa using hy')]
      · rw [List.find?_cons_of_neg _ (by simpa using hy'),
          List.find?_cons_of_neg _ (by simpa using hy')]
        exact ih

theorem status_of_set (s : Store) (aid : Nat) (a a' : Appointment)
    (ha : find_appointment s aid = some a) (hid : a'.id = aid) :
    ∀ aid', status_of (set_appointment s aid a') aid' =
      if aid' = aid then some a'.status else status_of s aid' := by
  intro aid'
  by_cases hcase : aid' = aid
  · subst hcase
    unfold status_of find_appointment set_appointment
    simp only
    rw [find?_map_set ha hid]
    simp
  · unfold status_of find_appointment set_appointment
    simp only
    rw [find?_map_set_ne hcase hid]
    simp [hcase]

theorem end_consultation_found (s : Store) (u : User) (cid : Nat)
    (notes : Option String) (now : Int) (c : Consultation) (a : Appointment)
    (hc : find_consultation s cid = some c)
    (ha : find_appointment s c.appointment_id = some a) :
    end_consultation s u cid notes now =
      if u.id ≠ a.doctor_id then
        .error ⟨403, "Only the assigned doctor can end the consultation"⟩
      else if c.ended_at ≠ none then
        .error ⟨400, "Consultation has already ended"⟩
      else
        .ok ({ set_appointment s c.appointment_id
                { a with status := AppointmentStatus.completed } with
                consultations := s.consultations.map (fun d =>
                  if d.id = cid then { c with ended_at := some now, notes := notes } else d) },
          { c with ended_at := some now, notes := notes },
          [(Event.consultation_ended cid a.id, SessionKey.patient a.patient_id)]) := by
  unfold end_consultation
  rw [hc]
  dsimp only
  rw [ha]

/-- C3 (amended): the dedicated lifecycle operations respect the spec's state
machine — booking creates a WAITING appointment and leaves every existing
appointment's status untouched; cancel and consultation start change statuses
only along Waiting→Cancelled resp. Waiting→InProgress, leaving all other
appointments unchanged; consultation end changes only the owning
appointment's status, stamping it COMPLETED (the InProgress→Completed edge
whenever it was InProgress, as along the normal flow).  The claim's
universal form fails because the generic update operation validates no
transition (see the counterexample). -/
theorem appointment_status_transitions :
    (∀ (s : Store) (u : User) (did : Nat) (t : Int) (nid : Nat)
      (s' : Store) (x : Appointment) (ev : Sends),
      create_appointment s u did t nid = .ok (s', x, ev) →
      x.status = AppointmentStatus.waiting ∧
      ∀ (aid : Nat) (st : AppointmentStatus),
        status_of s aid = some st → status_of s' aid = some st) ∧
    (∀ (s : Store) (u : User) (aid : Nat) (s' : Store) (x : Appointment) (ev : Sends),
      cancel_appointment s u aid = .ok (s', x, ev) →
      ∀ (aid' : Nat) (st st' : AppointmentStatus),
        status_of s aid' = some st → status_of s' aid' = some st' →
        allowed_transition st st') ∧
    (∀ (s : Store) (u : User) (aid : Nat) (ty : ConsultationType) (nid : Nat) (now : Int)
      (s' : Store) (x : Consultation) (ev : Sends),
      start_consultation s u aid ty nid now = .ok (s', x, ev) →
      ∀ (aid' : Nat) (st st' : AppointmentStatus),
        status_of s aid' = some st → status_of s' aid' = some st' →
        allowed_transition st st') ∧
    (∀ (s : Store) (u : User) (cid : Nat) (notes : Option String) (now : Int)
      (s' : Store) (x : Consultation) (ev : Sends),
      end_consultation s u cid notes now = .ok (s', x, ev) →
      ∀ (aid' : Nat) (st st' : AppointmentStatus),
        status_of s aid' = some st → status_of s' aid' = some st' →
        (aid' ≠ x.appointment_id → st' = st) ∧
        (aid' = x.appointment_id → st' = AppointmentStatus.completed ∧
          (st = AppointmentStatus.in_progress → allowed_transition st st'))) := by
  refine ⟨?_, ?_, ?_, ?_⟩
  · intro s u did t nid s' x ev hok
    unfold create_appointment at hok
    cases hd : s.users.find? (fun v =>
        decide (v.id = did ∧ v.role = UserRole.doctor ∧ v.is_active = true)) with
    | none => rw [hd] at hok; cases hok
    | some d =>
      rw [hd] at hok
      dsimp only at hok
      cases hfind : s.appointments.find? (fun a =>
          decide (a.doctor_id = did ∧ a.scheduled_time = t ∧
            (a.status = AppointmentStatus.waiting ∨
              a.status = AppointmentStatus.in_progress))) with
      | some b => rw [hfind] at hok; cases hok
      | none =>
        rw [hfind] at hok
        have hx : x = ⟨nid, u.id, did, AppointmentStatus.waiting, t⟩ := by
          cases hok; rfl
        have hs' : s' = { s with appointments :=
            s.appointments ++ [⟨nid, u.id, did, AppointmentStatus.waiting, t⟩] } := by
          cases hok; rfl
        refine ⟨by rw [hx], ?_⟩
        intro aid st hst
        unfold status_of find_appointment at hst ⊢
        rw [hs']
        cases hfa : s.appointments.find? (fun a => decide (a.id = aid)) with
        | none => rw [hfa] at hst; cases hst
        | some a =>
          rw [hfa] at hst
          simp only [List.append_eq]
          rw [find?_append_left hfa]
          exact hst
  · intro s u aid s' x ev hok
    cases ha : find_appointment s aid with
    | none =>
      unfold cancel_appointment at hok
      rw [ha] at hok
      cases hok
    | some a =>
      rw [cancel_appointment_found s u aid a ha] at hok
      by_cases hforb : (u.role = UserRole.patient ∧ a.patient_id ≠ u.id) ∨
          (u.role = UserRole.doctor ∧ a.doctor_id ≠ u.id ∧ u.role ≠ UserRole.admin)
      · rw [if_pos hforb] at hok; cases hok
      · rw [if_neg hforb] at hok
        by_cases hst : a.status ≠ AppointmentStatus.waiting
        · rw [if_pos hst] at hok; cases hok
        · rw [if_neg hst] at hok
          rw [Classical.not_not] at hst
          have hs' : s' = set_appointment s aid
              { a with status := AppointmentStatus.cancelled } := by
            cases hok; rfl
          have haid : a.id = aid := by simpa using List.find?_some ha
          intro aid' st st' hbefore hafter
          rw [hs', status_of_set s aid a
            { a with status := AppointmentStatus.cancelled } ha haid aid'] at hafter
          by_cases hcase : aid' = aid
          · rw [if_pos hcase] at hafter
            have hst' : st' = AppointmentStatus.cancelled := by
              cases hafter; rfl
            have hstw : st = AppointmentStatus.waiting := by
              subst hcase
              unfold status_of at hbefore
              rw [ha] at hbefore
              cases hbefore
              exact hst
            rw [hst', hstw]
            exact Or.inr (Or.inr (Or.inr ⟨rfl, rfl⟩))
          · rw [if_neg hcase] at hafter
            rw [hbefore] at hafter
            cases hafter
            exact Or.inl rfl
  · intro s u aid ty nid now s' x ev hok
    cases ha : find_appointment s aid with
    | none =>
      unfold start_consultation at hok
      rw [ha] at hok
      cases hok
    | some a =>
      rw [start_consultation_found s u aid ty nid now a ha] at hok
      by_cases hauth : u.id ≠ a.patient_id ∧ u.id ≠ a.doctor_id
      · rw [if_pos hauth] at hok; cases hok
      · rw [if_neg hauth] at hok
        by_cases hst : a.status ≠ AppointmentStatus.waiting
        · rw [if_pos hst] at hok; cases hok
        · rw [if_neg hst] at hok
          rw [Classical.not_not] at hst
          cases hcons : s.consultations.find? (fun c => decide (c.appointment_id = aid)) with
          | some c => rw [hcons] at hok; cases hok
          | none =>
            rw [hcons] at hok
            have hs' : s' = { set_appointment s aid
                { a with status := AppointmentStatus.in_progress } with
                consultations := s.consultations ++ [⟨nid, aid, ty, some now, none, none⟩] } := by
              cases hok; rfl
            have haid : a.id = aid := by simpa using List.find?_some ha
            intro aid' st st' hbefore hafter
            have hafter' : status_of (set_appointment s aid
                { a with status := AppointmentStatus.in_progress }) aid' = some st' := by
              rw [hs'] at hafter
              exact hafter
            rw [status_of_set s aid a
              { a with status := AppointmentStatus.in_progress } ha haid aid'] at hafter'
            by_cases hcase : aid' = aid
            · rw [if_pos hcase] at hafter'
              have hst' : st' = AppointmentStatus.in_progress := by
                cases hafter'; rfl
              have hstw : st = AppointmentStatus.waiting := by
                subst hcase
                unfold status_of at hbefore
                rw [ha] at hbefore
                cases hbefore
                exact hst
              rw [hst', hstw]
              exact Or.inr (Or.inl ⟨rfl, rfl⟩)
            · rw [if_neg hcase] at hafter'
              rw [hbefore] at hafter'
              cases hafter'
              exact Or.inl rfl
  · intro s u cid notes now s' x ev hok
    cases hc : find_consultation s cid with
    | none =>
      unfold end_consultation at hok
      rw [hc] at hok
      cases hok
    | some c =>
      cases ha : find_appointment s c.appointment_id with
      | none =>
        unfold end_consultation at hok
        rw [hc] at hok
        dsimp only at hok
        rw [ha] at hok
        cases hok
      | some a =>
        rw [end_consultation_found s u cid notes now c a hc ha] at hok
        by_cases hauth : u.id ≠ a.doctor_id
        · rw [if_pos hauth] at hok; cases hok
        · rw [if_neg hauth] at hok
          by_cases hend : c.ended_at ≠ none
          · rw [if_pos hend] at hok; cases hok
          · rw [if_neg hend] at hok
            have hs' : s' = { set_appointment s c.appointment_id
                { a with status := AppointmentStatus.completed } with
                consultations := s.consultations.map (fun d =>
                  if d.id = cid then { c with ended_at := some now, notes := notes }
                  else d) } := by
              cases hok; rfl
            have hx : x = { c with ended_at := some now, notes := notes } := by
              cases hok; rfl
            have haid : a.id = c.appointment_id := by simpa using List.find?_some ha
            intro aid' st st' hbefore hafter
            have hafter' : status_of (set_appointment s c.appointment_id
                { a with status := AppointmentStatus.completed }) aid' = some st' := by
              rw [hs'] at hafter
              exact hafter
            rw [status_of_set s c.appointment_id a
              { a with status := AppointmentStatus.completed } ha haid aid'] at hafter'
            have hxaid : x.appointment_id = c.appointment_id := by rw [hx]
            by_cases hcase : aid' = c.appointment_id
            · rw [if_pos hcase] at hafter'
              have hst' : st' = AppointmentStatus.completed := by
                cases hafter'; rfl
              refine ⟨fun hne => absurd (hxaid ▸ hcase) hne, fun _ => ⟨hst', ?_⟩⟩
              intro hstp
              rw [hst', hstp]
              exact Or.inr (Or.inr (Or.inl ⟨rfl, rfl⟩))
            · rw [if_neg hcase] at hafter'
              rw [hbefore] at hafter'
              refine ⟨fun _ => by cases hafter'; rfl,
                fun heq => absurd (hxaid ▸ heq) hcase⟩

/-- C3 as frozen is refuted: the generic update endpoint lets the owning
doctor set a COMPLETED appointment's status straight back to WAITING — a
transition outside the spec's machine — because it copies any supplied
status with no transition validation. -/
theorem update_status_bypass_counterexample :
    update_appointment
        { users := [], appointments := [⟨1, 2, 3, AppointmentStatus.completed, 100⟩],
          consultations := [], messages := [] }
        ⟨3, UserRole.doctor, true, "Doc"⟩ 1 (some AppointmentStatus.waiting) none =
      Except.ok
        ({ users := [], appointments := [⟨1, 2, 3, AppointmentStatus.waiting, 100⟩],
           consultations := [], messages := [] },
         ⟨1, 2, 3, AppointmentStatus.waiting, 100⟩,
         [(Event.appointment_status_update 1 AppointmentStatus.waiting, SessionKey.patient 2),
          (Event.appointment_status_update 1 AppointmentStatus.waiting, SessionKey.doctor 3)]) ∧
    ¬ allowed_transition AppointmentStatus.completed AppointmentStatus.waiting :=
  ⟨by rfl, by decide⟩

theorem appointment_status_transitions_witness :
    allowed_transition AppointmentStatus.waiting AppointmentStatus.cancelled :=
  (appointment_status_transitions.2.1 demo_store_cancel
      ⟨2, UserRole.patient, true, "Pat"⟩ 1
      { demo_store_cancel with
        appointments := [⟨1, 2, 3, AppointmentStatus.cancelled, 100⟩] }
      ⟨1, 2, 3, AppointmentStatus.cancelled, 100⟩
      [(Event.appointment_cancelled 1, SessionKey.patient 2),
       (Event.appointment_cancelled 1, SessionKey.doctor 3)] (by rfl))
    1 AppointmentStatus.waiting AppointmentStatus.cancelled (by rfl) (by rfl)

end Klinika
